import Mathlib

/-!
Shallow embedding of the campus feedback dashboard (src/app.py).

The app collects a feedback submission (name, category, free text), classifies
its sentiment with a binary neural model, builds a six-field record, appends it
to a Google-Sheets-backed store and to the in-session record list, and renders
aggregate counts.  The embedding below translates the decision content of that
pipeline: the sentiment threshold remap (lines 146-157), the record
construction (lines 159-166), the save/load spreadsheet adapter (lines 60-85),
the submit handler control flow (lines 143-174) and the per-sentiment counts
used by the student and admin views (lines 184-195, 246-258).
-/

namespace CampusFeedback

/-- One feedback entry as the dict built at src/app.py lines 159-166:
name, category, feedback text, sentiment label, numeric confidence and a
string-formatted timestamp. -/
structure FeedbackRecord where
  name : String
  category : String
  feedback : String
  sentiment : String
  confidence : ℚ
  timestamp : String
deriving DecidableEq, Repr

/-- Python `round` to an integer: round-half-to-even (banker's rounding),
modelled on exact rationals. -/
def roundHalfEven (q : ℚ) : ℤ :=
  if Int.fract q < 1/2 then ⌊q⌋
  else if 1/2 < Int.fract q then ⌊q⌋ + 1
  else if ⌊q⌋ % 2 = 0 then ⌊q⌋ else ⌊q⌋ + 1

/-- Python `round(x, 1)`: round to one decimal place. -/
def pyRound1 (q : ℚ) : ℚ := (roundHalfEven (q * 10) : ℚ) / 10

/-- The sentiment remap of src/app.py lines 151-157: a model label of
`POSITIVE` maps to `Positive`, any other label to `Negative`; then a model
confidence below 0.70 overrides the label to `Neutral`. -/
def sentimentOf (label : String) (confidence : ℚ) : String :=
  let s := if label = "POSITIVE" then "Positive" else "Negative"
  if confidence < 7/10 then "Neutral" else s

/-- The classifier is invoked on `feedback_text[:512]` (src/app.py line 146). -/
def classifierInput (feedback_text : String) : String := feedback_text.take 512

/-- The record construction of src/app.py lines 159-166: an empty name becomes
`Anonymous`, the sentiment is the remapped label, and the confidence is the
model score times 100 rounded to one decimal place. -/
def mkEntry (name category feedback_text : String) (label : String) (score : ℚ)
    (now : String) : FeedbackRecord :=
  { name := if name = "" then "Anonymous" else name
    category := category
    feedback := feedback_text
    sentiment := sentimentOf label score
    confidence := pyRound1 (score * 100)
    timestamp := now }

/-- A spreadsheet cell: the sheet holds either text or a number (gspread
returns numbers for numeric-looking cells). -/
inductive Cell where
  | str (s : String) : Cell
  | num (q : ℚ) : Cell
deriving DecidableEq, Repr

/-- A spreadsheet row is a list of cells; the sheet is a list of rows. -/
abbrev Row := List Cell

/-! Decimal rendering and parsing of the confidence cell.  `save_data_to_sheets`
writes `str(feedback_entry['confidence'])` (line 78); every confidence the app
produces is a one-decimal value, so the written text is `⟨integer part⟩.⟨one
digit⟩`.  gspread's `get_all_records` numericises such cells back to numbers on
load. -/

/-- The decimal digit character for a digit value. -/
def digChar : ℕ → Char
  | 0 => '0' | 1 => '1' | 2 => '2' | 3 => '3' | 4 => '4'
  | 5 => '5' | 6 => '6' | 7 => '7' | 8 => '8' | 9 => '9'
  | _ => '?'

/-- The digit value of a decimal digit character (10 for a non-digit). -/
def charDig (c : Char) : ℕ :=
  if c = '0' then 0 else if c = '1' then 1 else if c = '2' then 2
  else if c = '3' then 3 else if c = '4' then 4 else if c = '5' then 5
  else if c = '6' then 6 else if c = '7' then 7 else if c = '8' then 8
  else if c = '9' then 9 else 10

/-- Whether a character is a decimal digit. -/
def isDigCh (c : Char) : Bool := charDig c < 10

/-- The decimal character string of a natural number (most significant first). -/
def natChars (n : ℕ) : List Char :=
  if n = 0 then ['0'] else ((Nat.digits 10 n).map digChar).reverse

/-- Parse a nonempty all-digit character string back to a natural number. -/
def natOfChars (l : List Char) : Option ℕ :=
  if !l.isEmpty && l.all isDigCh then
    some (Nat.ofDigits 10 (l.reverse.map charDig))
  else none

/-- Split a character string at its first dot. -/
def breakDot : List Char → Option (List Char × List Char)
  | [] => none
  | c :: cs =>
    if c = '.' then some ([], cs)
    else
      match breakDot cs with
      | some (a, b) => some (c :: a, b)
      | none => none

/-- Parse decimal text to a rational: either `⟨digits⟩` or
`⟨digits⟩.⟨digits⟩` (gspread numericisation of a cell written by `str`). -/
def parseDecChars (l : List Char) : Option ℚ :=
  match breakDot l with
  | some (a, b) =>
    match natOfChars a, natOfChars b with
    | some x, some y => some ((x : ℚ) + (y : ℚ) / (10 : ℚ) ^ b.length)
    | _, _ => none
  | none =>
    match natOfChars l with
    | some n => some ((n : ℚ))
    | none => none

/-- Parse decimal text in a string cell. -/
def parseDec (s : String) : Option ℚ := parseDecChars s.data

/-- The character string Python `str` prints for the one-decimal value
`t / 10` (for example `str(85.0)` is `85.0`, rendered from `t = 850`). -/
def oneDecChars (t : ℕ) : List Char :=
  natChars (t / 10) ++ '.' :: natChars (t % 10)

/-- Python `str` of the one-decimal value `t / 10` as a string. -/
def oneDecStr (t : ℕ) : String := String.mk (oneDecChars t)

/-- Python `str(feedback_entry['confidence'])` (src/app.py line 78) for a
nonnegative one-decimal confidence value. -/
def decStr (q : ℚ) : String := oneDecStr (q * 10).num.toNat

/-- The six-column row `save_data_to_sheets` appends (src/app.py lines 73-80):
name, category, feedback text, sentiment, stringified confidence, timestamp. -/
def rowOf (e : FeedbackRecord) : Row :=
  [Cell.str e.name, Cell.str e.category, Cell.str e.feedback,
   Cell.str e.sentiment, Cell.str (decStr e.confidence), Cell.str e.timestamp]

/-- `save_data_to_sheets` (src/app.py lines 70-85): on storage success the row
is appended and `True` is returned; a storage-layer failure is caught, an error
is shown and `False` is returned with the sheet unchanged.  `storageOk` models
whether the remote spreadsheet call succeeds. -/
def save_data_to_sheets (storageOk : Bool) (e : FeedbackRecord)
    (sheet : List Row) : Bool × List Row :=
  if storageOk then (true, sheet ++ [rowOf e]) else (false, sheet)

/-- Read one sheet row back as a feedback record, the way the app consumes a
`get_all_records` dict: five text fields and a numericised confidence cell. -/
def recordOfRow : Row → Option FeedbackRecord
  | [Cell.str n, Cell.str c, Cell.str f, Cell.str s, conf, Cell.str t] =>
    match conf with
    | Cell.num q => some ⟨n, c, f, s, q, t⟩
    | Cell.str cs =>
      match parseDec cs with
      | some q => some ⟨n, c, f, s, q, t⟩
      | none => none
  | _ => none

/-- Modelled from the spec: gspread `sheet.get_all_records()` (the storage
boundary `load() -> ordered sequence of records`), returning the sheet's rows
as records in order, numeric-looking confidence cells numericised. -/
def get_all_records (rows : List Row) : List FeedbackRecord :=
  rows.filterMap recordOfRow

/-- `load_data_from_sheets` (src/app.py lines 60-67): fetch the records; on any
storage-layer exception show an error and return the empty list; an empty
fetch also yields the empty list (`data if data else []`). -/
def load_data_from_sheets (fetch : Except String (List Row)) :
    List FeedbackRecord :=
  match fetch with
  | .ok rows =>
    let data := get_all_records rows
    if data.isEmpty then [] else data
  | .error _ => []

/-- Python whitespace as stripped by `str.strip()`. -/
def isSpaceCh (c : Char) : Bool :=
  c = ' ' || c = '\t' || c = '\n' || c = '\r' || c = '\x0b' || c = '\x0c'

/-- Python `feedback_text.strip()` (src/app.py line 144): drop leading and
trailing whitespace. -/
def pyStrip (s : String) : String :=
  String.mk (((s.data.dropWhile isSpaceCh).reverse.dropWhile isSpaceCh).reverse)

/-- The truthiness test `if feedback_text.strip():` (src/app.py line 144):
true when the stripped text is nonempty. -/
def stripNonEmpty (s : String) : Bool := pyStrip s ≠ ""

/-- What the submit handler did: refused an empty text with a warning, failed
to save, saved an entry, or let a classifier exception propagate. -/
inductive SubmitOutcome where
  | warned : SubmitOutcome
  | saveFailed : SubmitOutcome
  | saved (entry : FeedbackRecord) : SubmitOutcome
  | classifierError (msg : String) : SubmitOutcome
deriving DecidableEq, Repr

/-- The state after one submit: whether the classifier was invoked, the
outcome, the in-session record list and the spreadsheet contents. -/
structure SubmitResult where
  classifierCalled : Bool
  outcome : SubmitOutcome
  records : List FeedbackRecord
  sheet : List Row
deriving DecidableEq, Repr

/-- The feedback form submit handler (src/app.py lines 143-174).  If the
stripped text is empty, warn and do nothing.  Otherwise invoke the classifier
on the first 512 characters; a classifier exception propagates uncaught (no
record is built or stored).  On a classification, build the entry; if the
spreadsheet save succeeds, append the entry to the session list and report
success, else show the retry error and keep the session list unchanged. -/
def submitFeedback (classifier : String → Except String (String × ℚ))
    (storageOk : Bool) (name category feedback_text now : String)
    (records : List FeedbackRecord) (sheet : List Row) : SubmitResult :=
  if stripNonEmpty feedback_text then
    match classifier (classifierInput feedback_text) with
    | .error e => ⟨true, .classifierError e, records, sheet⟩
    | .ok (label, score) =>
      let entry := mkEntry name category feedback_text label score now
      match save_data_to_sheets storageOk entry sheet with
      | (true, sheet') => ⟨true, .saved entry, records ++ [entry], sheet'⟩
      | (false, sheet') => ⟨true, .saveFailed, records, sheet'⟩
  else
    ⟨false, .warned, records, sheet⟩

/-- Per-sentiment count used by both the student and admin views
(`df['sentiment'].value_counts().get(s, 0)`, src/app.py lines 184-195 and
246-258): the number of records whose sentiment equals `s`. -/
def sentimentCount (records : List FeedbackRecord) (s : String) : ℕ :=
  (records.filter (fun r => r.sentiment = s)).length

/-- The sentiment and confidence carried by a saved entry, if any. -/
def SubmitOutcome.saved? : SubmitOutcome → Option (String × ℚ)
  | .saved e => some (e.sentiment, e.confidence)
  | _ => none

/-! Supporting lemmas for the decimal round trip of the confidence cell. -/

lemma charDig_digChar {d : ℕ} (hd : d < 10) : charDig (digChar d) = d := by
  interval_cases d <;> rfl

lemma isDigCh_digChar {d : ℕ} (hd : d < 10) : isDigCh (digChar d) = true := by
  interval_cases d <;> rfl

lemma digChar_ne_dot {d : ℕ} (hd : d < 10) : digChar d ≠ '.' := by
  interval_cases d <;> decide

lemma dot_not_mem_natChars (n : ℕ) : '.' ∉ natChars n := by
  unfold natChars
  split
  · decide
  · intro hmem
    rw [List.mem_reverse, List.mem_map] at hmem
    obtain ⟨d, hd, hdc⟩ := hmem
    exact digChar_ne_dot (Nat.digits_lt_base (by norm_num) hd) hdc

lemma natOfChars_natChars (n : ℕ) : natOfChars (natChars n) = some n := by
  rcases eq_or_ne n 0 with rfl | hn
  · rfl
  · have hne : Nat.digits 10 n ≠ [] := Nat.digits_ne_nil_iff_ne_zero.mpr hn
    unfold natChars natOfChars
    rw [if_neg hn]
    have hcond : (!(((Nat.digits 10 n).map digChar).reverse).isEmpty &&
        (((Nat.digits 10 n).map digChar).reverse).all isDigCh) = true := by
      rw [Bool.and_eq_true, Bool.not_eq_true']
      constructor
      · rw [List.isEmpty_eq_false]
        simp only [ne_eq, List.reverse_eq_nil_iff, List.map_eq_nil_iff]
        exact hne
      · rw [List.all_eq_true]
        intro c hc
        rw [List.mem_reverse, List.mem_map] at hc
        obtain ⟨d, hd, rfl⟩ := hc
        exact isDigCh_digChar (Nat.digits_lt_base (by norm_num) hd)
    rw [if_pos hcond]
    congr 1
    rw [List.reverse_reverse, List.map_map]
    have hid : (Nat.digits 10 n).map (charDig ∘ digChar) = Nat.digits 10 n := by
      conv_rhs => rw [← List.map_id (Nat.digits 10 n)]
      refine List.map_congr_left fun d hd => ?_
      show charDig (digChar d) = d
      exact charDig_digChar (Nat.digits_lt_base (by norm_num) hd)
    rw [hid, Nat.ofDigits_digits]

lemma natChars_length_one {d : ℕ} (hd : d < 10) : (natChars d).length = 1 := by
  rcases eq_or_ne d 0 with rfl | hdn
  · rfl
  · unfold natChars
    rw [if_neg hdn]
    rw [Nat.digits_def' (by norm_num : 1 < 10) (Nat.pos_of_ne_zero hdn)]
    rw [Nat.mod_eq_of_lt hd, Nat.div_eq_of_lt hd, Nat.digits_zero]
    rfl

lemma breakDot_append (a b : List Char) (ha : '.' ∉ a) :
    breakDot (a ++ '.' :: b) = some (a, b) := by
  induction a with
  | nil => rfl
  | cons c cs ih =>
    have hc : c ≠ '.' := fun h => ha (h ▸ List.mem_cons_self c cs)
    have hcs : '.' ∉ cs := fun h => ha (List.mem_cons_of_mem c h)
    simp only [List.cons_append, breakDot, if_neg hc, List.append_eq, ih hcs]

lemma parseDec_oneDecStr (t : ℕ) :
    parseDec (oneDecStr t) = some ((t : ℚ) / 10) := by
  have hdata : (oneDecStr t).data = oneDecChars t := rfl
  rw [parseDec, hdata]
  unfold parseDecChars oneDecChars
  rw [breakDot_append _ _ (dot_not_mem_natChars (t / 10))]
  simp only [natOfChars_natChars]
  simp only [natChars_length_one (Nat.mod_lt t (by norm_num)), pow_one]
  congr 1
  have h := Nat.div_add_mod t 10
  have hq : ((10 * (t / 10) + t % 10 : ℕ) : ℚ) = (t : ℚ) := by exact_mod_cast h
  push_cast at hq
  field_simp
  linarith

lemma decStr_natDiv (t : ℕ) : decStr ((t : ℚ) / 10) = oneDecStr t := by
  unfold decStr
  have h10 : ((t : ℚ) / 10) * 10 = (t : ℚ) := by field_simp
  rw [h10, Rat.num_natCast, Int.toNat_natCast]

lemma recordOfRow_rowOf (e : FeedbackRecord) (t : ℕ)
    (h : e.confidence = (t : ℚ) / 10) :
    recordOfRow (rowOf e) = some e := by
  obtain ⟨n, c, f, s, q, ts⟩ := e
  simp only at h
  subst h
  simp [recordOfRow, rowOf, decStr_natDiv, parseDec_oneDecStr]

lemma load_data_from_sheets_ok (rows : List Row) :
    load_data_from_sheets (.ok rows) = get_all_records rows := by
  by_cases h : (get_all_records rows).isEmpty = true
  · have h2 : get_all_records rows = [] := List.isEmpty_iff.mp h
    simp [load_data_from_sheets, h2]
  · simp [load_data_from_sheets, h]

lemma roundHalfEven_nonneg {q : ℚ} (h : 0 ≤ q) : 0 ≤ roundHalfEven q := by
  have hfl : 0 ≤ ⌊q⌋ := Int.le_floor.mpr (by exact_mod_cast h)
  unfold roundHalfEven
  split
  · exact hfl
  · split
    · omega
    · split
      · exact hfl
      · omega

lemma roundHalfEven_le_ceil (q : ℚ) : roundHalfEven q ≤ ⌈q⌉ := by
  have hfc : ⌊q⌋ ≤ ⌈q⌉ := Int.floor_le_ceil q
  have key : 0 < Int.fract q → ⌊q⌋ + 1 ≤ ⌈q⌉ := by
    intro hf
    rw [Int.fract] at hf
    have hq : (⌊q⌋ : ℚ) < q := by linarith
    have := Int.lt_ceil.mpr hq
    omega
  unfold roundHalfEven
  split
  · exact hfc
  · next h1 =>
    push_neg at h1
    split
    · next h2 => exact key (by linarith)
    · next h2 =>
      push_neg at h2
      split
      · exact hfc
      · exact key (by linarith)

lemma pyRound1_bounds {x : ℚ} (h0 : 0 ≤ x) (h1 : x ≤ 100) :
    0 ≤ pyRound1 x ∧ pyRound1 x ≤ 100 := by
  have hnn : 0 ≤ roundHalfEven (x * 10) := roundHalfEven_nonneg (by linarith)
  have hle : roundHalfEven (x * 10) ≤ ⌈x * 10⌉ := roundHalfEven_le_ceil _
  have hc : ⌈x * 10⌉ ≤ (1000 : ℤ) := Int.ceil_le.mpr (by push_cast; linarith)
  have hcast : (roundHalfEven (x * 10) : ℚ) ≤ 1000 := by
    exact_mod_cast le_trans hle hc
  have hcast0 : (0 : ℚ) ≤ (roundHalfEven (x * 10) : ℚ) := by exact_mod_cast hnn
  unfold pyRound1
  constructor
  · positivity
  · rw [div_le_iff₀ (by norm_num : (0 : ℚ) < 10)]
    linarith

lemma sentimentCount_cons (r : FeedbackRecord) (rs : List FeedbackRecord)
    (s : String) :
    sentimentCount (r :: rs) s =
      (if r.sentiment = s then 1 else 0) + sentimentCount rs s := by
  by_cases hp : r.sentiment = s
  · simp [sentimentCount, List.filter_cons, hp, Nat.add_comm]
  · simp [sentimentCount, List.filter_cons, hp]

/-! The claims. -/

/-- C1: for every submission classified by the neural model, a confidence of
at least 0.70 keeps the model's binary label (`POSITIVE` stores `Positive`,
`NEGATIVE` stores `Negative`), and a confidence below 0.70 stores `Neutral`
regardless of the binary label. -/
theorem neural_threshold_sentiment (name category text label now : String)
    (score : ℚ) :
    (7/10 ≤ score →
      (label = "POSITIVE" →
        (mkEntry name category text label score now).sentiment = "Positive") ∧
      (label = "NEGATIVE" →
        (mkEntry name category text label score now).sentiment = "Negative")) ∧
    (score < 7/10 →
      (mkEntry name category text label score now).sentiment = "Neutral") := by
  have hne : ("NEGATIVE" : String) ≠ "POSITIVE" := by decide
  constructor
  · intro hge
    have hnlt : ¬ score < 7/10 := not_lt.mpr hge
    constructor <;> intro hl <;> subst hl <;>
      simp [mkEntry, sentimentOf, hnlt, hne]
  · intro hlt
    simp [mkEntry, sentimentOf, hlt]

/-- Witness for C1 at concrete inputs: `POSITIVE` at 0.9 stores `Positive`,
`NEGATIVE` at 0.9 stores `Negative`, `NEGATIVE` at 0.5 stores `Neutral`. -/
theorem neural_threshold_sentiment_witness :
    (mkEntry "A" "Food" "x" "POSITIVE" (9/10) "t").sentiment = "Positive" ∧
    (mkEntry "A" "Food" "x" "NEGATIVE" (9/10) "t").sentiment = "Negative" ∧
    (mkEntry "A" "Food" "x" "NEGATIVE" (1/2) "t").sentiment = "Neutral" :=
  ⟨((neural_threshold_sentiment "A" "Food" "x" "POSITIVE" "t" (9/10)).1
      (by norm_num)).1 rfl,
   ((neural_threshold_sentiment "A" "Food" "x" "NEGATIVE" "t" (9/10)).1
      (by norm_num)).2 rfl,
   (neural_threshold_sentiment "A" "Food" "x" "NEGATIVE" "t" (1/2)).2
      (by norm_num)⟩

/-- C2 counterexample: a submission with classifier score 0.9 (inside [0, 1])
stores confidence 90, which is neither the raw score nor inside [0, 1]. -/
theorem confidence_not_raw_score :
    (mkEntry "A" "Food" "Great food" "POSITIVE" (9/10)
        "2024-01-01 00:00:00").confidence = 90 ∧
    (mkEntry "A" "Food" "Great food" "POSITIVE" (9/10)
        "2024-01-01 00:00:00").confidence ≠ 9/10 ∧
    ¬ (mkEntry "A" "Food" "Great food" "POSITIVE" (9/10)
        "2024-01-01 00:00:00").confidence ≤ 1 := by
  have h : (mkEntry "A" "Food" "Great food" "POSITIVE" (9/10)
      "2024-01-01 00:00:00").confidence = 90 := by
    show pyRound1 ((9/10 : ℚ) * 100) = 90
    norm_num [pyRound1, roundHalfEven, Int.fract]
  exact ⟨h, by rw [h]; norm_num, by rw [h]; norm_num⟩

/-- C2 amended: the recorded confidence is the classifier score expressed as
a percentage and rounded to one decimal place, so for a score in [0, 1] it
lies in [0, 100]. -/
theorem confidence_percent_of_score (name category text label now : String)
    (score : ℚ) (h0 : 0 ≤ score) (h1 : score ≤ 1) :
    (mkEntry name category text label score now).confidence =
      pyRound1 (score * 100) ∧
    0 ≤ (mkEntry name category text label score now).confidence ∧
    (mkEntry name category text label score now).confidence ≤ 100 := by
  have hb := pyRound1_bounds (show (0 : ℚ) ≤ score * 100 by linarith)
    (show score * 100 ≤ 100 by linarith)
  exact ⟨rfl, hb.1, hb.2⟩

/-- Witness for C2 amended at score 0.5. -/
theorem confidence_percent_of_score_witness :
    (mkEntry "A" "Food" "x" "POSITIVE" (1/2) "t").confidence =
      pyRound1 ((1/2 : ℚ) * 100) ∧
    0 ≤ (mkEntry "A" "Food" "x" "POSITIVE" (1/2) "t").confidence ∧
    (mkEntry "A" "Food" "x" "POSITIVE" (1/2) "t").confidence ≤ 100 :=
  confidence_percent_of_score "A" "Food" "x" "POSITIVE" "t" (1/2)
    (by norm_num) (by norm_num)

/-- C3: appending a record to the spreadsheet and loading the sheet back
yields the previous records followed by a record with the same six logical
fields, the string-formatted timestamp included.  The hypothesis says the
confidence is a nonnegative one-decimal value, which holds of every
confidence the app writes (a percentage rounded to one decimal place). -/
theorem append_then_load_roundtrip (e : FeedbackRecord) (t : ℕ)
    (h : e.confidence = (t : ℚ) / 10) (rows : List Row) :
    (save_data_to_sheets true e rows).1 = true ∧
    load_data_from_sheets (.ok (save_data_to_sheets true e rows).2) =
      load_data_from_sheets (.ok rows) ++ [e] := by
  refine ⟨rfl, ?_⟩
  rw [load_data_from_sheets_ok, load_data_from_sheets_ok]
  show get_all_records (rows ++ [rowOf e]) = get_all_records rows ++ [e]
  unfold get_all_records
  rw [List.filterMap_append]
  simp [recordOfRow_rowOf e t h]

/-- Witness for C3: a concrete record with confidence 85.0 round-trips
through an empty sheet. -/
theorem append_then_load_roundtrip_witness :
    (save_data_to_sheets true
        ⟨"A", "Food", "Great food", "Positive", 85, "2024-01-01 10:00:00"⟩
        []).1 = true ∧
    load_data_from_sheets (.ok (save_data_to_sheets true
        ⟨"A", "Food", "Great food", "Positive", 85, "2024-01-01 10:00:00"⟩
        []).2) =
      load_data_from_sheets (.ok []) ++
        [⟨"A", "Food", "Great food", "Positive", 85, "2024-01-01 10:00:00"⟩] :=
  append_then_load_roundtrip _ 850 (by norm_num) []

/-- C4: the per-sentiment counts sum to the total record count for every
record sequence whose sentiments are among the three labels (an invariant of
every record the app builds, by C10), and on the empty sequence every count
is zero. -/
theorem sentiment_counts_sum_total (records : List FeedbackRecord)
    (h : ∀ r ∈ records, r.sentiment = "Positive" ∨ r.sentiment = "Neutral" ∨
      r.sentiment = "Negative") :
    sentimentCount records "Positive" + sentimentCount records "Neutral" +
      sentimentCount records "Negative" = records.length ∧
    sentimentCount ([] : List FeedbackRecord) "Positive" = 0 ∧
    sentimentCount ([] : List FeedbackRecord) "Neutral" = 0 ∧
    sentimentCount ([] : List FeedbackRecord) "Negative" = 0 := by
  refine ⟨?_, rfl, rfl, rfl⟩
  have hPN : ¬ ("Positive" : String) = "Neutral" := by decide
  have hPNeg : ¬ ("Positive" : String) = "Negative" := by decide
  have hNP : ¬ ("Neutral" : String) = "Positive" := by decide
  have hNNeg : ¬ ("Neutral" : String) = "Negative" := by decide
  have hNegP : ¬ ("Negative" : String) = "Positive" := by decide
  have hNegN : ¬ ("Negative" : String) = "Neutral" := by decide
  induction records with
  | nil => rfl
  | cons r rs ih =>
    have hr := h r (List.mem_cons_self r rs)
    have hrs : ∀ x ∈ rs, x.sentiment = "Positive" ∨ x.sentiment = "Neutral" ∨
        x.sentiment = "Negative" := fun x hx => h x (List.mem_cons_of_mem r hx)
    rw [sentimentCount_cons, sentimentCount_cons, sentimentCount_cons,
      List.length_cons]
    have hsum := ih hrs
    rcases hr with hr | hr | hr <;>
      rw [hr] <;>
      rw [if_pos rfl] <;>
      first
      | (rw [if_neg hPN, if_neg hPNeg]; omega)
      | (rw [if_neg hNP, if_neg hNNeg]; omega)
      | (rw [if_neg hNegP, if_neg hNegN]; omega)

/-- Witness for C4 on a concrete two-record list. -/
theorem sentiment_counts_sum_total_witness :
    sentimentCount [⟨"A", "Food", "x", "Positive", 85, "t1"⟩,
        ⟨"B", "Library", "y", "Neutral", 60, "t2"⟩] "Positive" +
      sentimentCount [⟨"A", "Food", "x", "Positive", 85, "t1"⟩,
        ⟨"B", "Library", "y", "Neutral", 60, "t2"⟩] "Neutral" +
      sentimentCount [⟨"A", "Food", "x", "Positive", 85, "t1"⟩,
        ⟨"B", "Library", "y", "Neutral", 60, "t2"⟩] "Negative" =
      ([⟨"A", "Food", "x", "Positive", 85, "t1"⟩,
        ⟨"B", "Library", "y", "Neutral", 60, "t2"⟩] :
          List FeedbackRecord).length ∧
    sentimentCount ([] : List FeedbackRecord) "Positive" = 0 ∧
    sentimentCount ([] : List FeedbackRecord) "Neutral" = 0 ∧
    sentimentCount ([] : List FeedbackRecord) "Negative" = 0 :=
  sentiment_counts_sum_total _ (by intro r hr; fin_cases hr <;> simp)

/-- C5: a submission whose feedback text is empty is refused with a warning:
the classifier is not invoked (for any classifier the result is the same and
`classifierCalled` is false), nothing is appended to the sheet, and the
session record list is unchanged. -/
theorem empty_feedback_refused
    (classifier : String → Except String (String × ℚ)) (storageOk : Bool)
    (name category now : String) (records : List FeedbackRecord)
    (sheet : List Row) :
    submitFeedback classifier storageOk name category "" now records sheet =
      ⟨false, .warned, records, sheet⟩ := by
  have hs : stripNonEmpty "" = false := by decide
  simp [submitFeedback, hs]

/-- C6: when the classifier returns a result but the spreadsheet save fails,
the submission reports the retry error, the classification result is
discarded, and the session record list and sheet are unchanged. -/
theorem save_failure_discards_entry
    (classifier : String → Except String (String × ℚ))
    (name category text now label : String) (score : ℚ)
    (records : List FeedbackRecord) (sheet : List Row)
    (hstrip : stripNonEmpty text = true)
    (hc : classifier (classifierInput text) = .ok (label, score)) :
    submitFeedback classifier false name category text now records sheet =
      ⟨true, .saveFailed, records, sheet⟩ := by
  simp [submitFeedback, hstrip, hc, save_data_to_sheets]

/-- Witness for C6: a concrete classified submission with a failing save
leaves the empty session list and sheet unchanged. -/
theorem save_failure_discards_entry_witness :
    submitFeedback (fun _ => .ok ("POSITIVE", 9/10)) false "A" "Food"
        "Great food" "t" [] [] = ⟨true, .saveFailed, [], []⟩ :=
  save_failure_discards_entry (fun _ => .ok ("POSITIVE", 9/10)) "A" "Food"
    "Great food" "t" "POSITIVE" (9/10) [] [] (by decide) rfl

/-- C7: when the storage layer raises on load, `load_data_from_sheets`
returns the empty list instead of raising further. -/
theorem load_failure_yields_empty (e : String) :
    load_data_from_sheets (.error e) = [] := rfl

/-- C8: a classifier invocation error is fatal to the submission: the error
propagates to the caller and no record is stored, neither on the sheet nor
in the session record list. -/
theorem classifier_error_fatal
    (classifier : String → Except String (String × ℚ)) (storageOk : Bool)
    (name category text now e : String) (records : List FeedbackRecord)
    (sheet : List Row)
    (hstrip : stripNonEmpty text = true)
    (hc : classifier (classifierInput text) = .error e) :
    submitFeedback classifier storageOk name category text now records sheet =
      ⟨true, .classifierError e, records, sheet⟩ := by
  simp [submitFeedback, hstrip, hc]

/-- Witness for C8: a concrete submission against a raising classifier. -/
theorem classifier_error_fatal_witness :
    submitFeedback (fun _ => .error "model unavailable") true "A" "Food"
        "Great food" "t" [] [] =
      ⟨true, .classifierError "model unavailable", [], []⟩ :=
  classifier_error_fatal (fun _ => .error "model unavailable") true "A"
    "Food" "Great food" "t" "model unavailable" [] [] (by decide) rfl

/-- C9: the classifier is invoked on `feedback_text[:512]`, so two submitted
texts agreeing on their first 512 characters give the same classifier result
and, in particular, saved entries with the same sentiment and confidence. -/
theorem classification_first_512_only
    (classifier : String → Except String (String × ℚ)) (storageOk : Bool)
    (name category now t₁ t₂ : String) (records : List FeedbackRecord)
    (sheet : List Row)
    (h : t₁.take 512 = t₂.take 512)
    (h1 : stripNonEmpty t₁ = true) (h2 : stripNonEmpty t₂ = true) :
    classifier (classifierInput t₁) = classifier (classifierInput t₂) ∧
    (submitFeedback classifier storageOk name category t₁ now records
        sheet).outcome.saved? =
      (submitFeedback classifier storageOk name category t₂ now records
        sheet).outcome.saved? := by
  have hin : classifierInput t₁ = classifierInput t₂ := h
  refine ⟨by rw [hin], ?_⟩
  unfold submitFeedback
  rw [h1, h2, hin]
  cases hc : classifier (classifierInput t₂) with
  | error e => simp [SubmitOutcome.saved?]
  | ok p =>
    obtain ⟨label, score⟩ := p
    cases storageOk <;>
      simp [save_data_to_sheets, SubmitOutcome.saved?, mkEntry]

/-- Witness for C9 at a concrete text. -/
theorem classification_first_512_only_witness :
    (fun _ : String => Except.ok (ε := String) ("POSITIVE", (9/10 : ℚ)))
        (classifierInput "Great") =
      (fun _ : String => Except.ok (ε := String) ("POSITIVE", (9/10 : ℚ)))
        (classifierInput "Great") ∧
    (submitFeedback (fun _ => .ok ("POSITIVE", 9/10)) true "A" "Food" "Great"
        "t" [] []).outcome.saved? =
      (submitFeedback (fun _ => .ok ("POSITIVE", 9/10)) true "A" "Food"
        "Great" "t" [] []).outcome.saved? :=
  classification_first_512_only (fun _ => .ok ("POSITIVE", 9/10)) true "A"
    "Food" "t" "Great" "Great" [] [] rfl (by decide) (by decide)

/-- C10: every record a submission builds has sentiment `Positive`, `Neutral`
or `Negative`; and at confidence at least 0.70 any model label other than
`POSITIVE` (not only `NEGATIVE`) stores `Negative`. -/
theorem sentiment_trichotomy (name category text label now : String)
    (score : ℚ) :
    ((mkEntry name category text label score now).sentiment = "Positive" ∨
     (mkEntry name category text label score now).sentiment = "Neutral" ∨
     (mkEntry name category text label score now).sentiment = "Negative") ∧
    (7/10 ≤ score → label ≠ "POSITIVE" →
      (mkEntry name category text label score now).sentiment = "Negative") := by
  constructor
  · by_cases hlt : score < 7/10
    · right; left; simp [mkEntry, sentimentOf, hlt]
    · by_cases hl : label = "POSITIVE"
      · left; simp [mkEntry, sentimentOf, hlt, hl]
      · right; right; simp [mkEntry, sentimentOf, hlt, hl]
  · intro hge hl
    simp [mkEntry, sentimentOf, not_lt.mpr hge, hl]

/-- Witness for C10: the unexpected label `LABEL_1` at confidence 0.9 stores
`Negative`. -/
theorem sentiment_trichotomy_witness :
    ((mkEntry "A" "Food" "x" "LABEL_1" (9/10) "t").sentiment = "Positive" ∨
     (mkEntry "A" "Food" "x" "LABEL_1" (9/10) "t").sentiment = "Neutral" ∨
     (mkEntry "A" "Food" "x" "LABEL_1" (9/10) "t").sentiment = "Negative") ∧
    (mkEntry "A" "Food" "x" "LABEL_1" (9/10) "t").sentiment = "Negative" :=
  ⟨(sentiment_trichotomy "A" "Food" "x" "LABEL_1" "t" (9/10)).1,
   (sentiment_trichotomy "A" "Food" "x" "LABEL_1" "t" (9/10)).2
     (by norm_num) (by decide)⟩

end CampusFeedback
